import Mathlib

/-!
Verification of the xayagame SQLite game engine test games and the
callback-based `DefaultMain` adapter.

The development embeds, from `src/xayagame/sqlitegame_tests.cpp`, the two
example rule sets (`ChatGame` and `InsertGame`) and, from
`src/xayagame/defaultmain.cpp`, the `CallbackGameLogic` adapter.  The
`SQLiteGame` engine itself (block attach/detach via savepoints, the
generated-ID service and the game-state-string query dispatch) is not part
of the given sources; those operations are modelled from the specification
and marked as such in their doc comments.
-/

set_option autoImplicit false

namespace Xaya

/-! ## Sorted association lists

SQLite tables keyed by a TEXT primary key behave as finite maps; the test
games read them back into `std::map`, which iterates keys in sorted order.
We model such a table as an association list kept strictly sorted by key,
so that equality of lists is equality of maps. -/

/-- Lexicographic order on character lists, comparing code points: the
order of `std::string`'s `operator<` on the byte strings the tests use. -/
def charListLtB : List Char → List Char → Bool
  | [], [] => false
  | [], _ :: _ => true
  | _ :: _, [] => false
  | x :: xs, y :: ys =>
      if x.val < y.val then true
      else if x = y then charListLtB xs ys
      else false

/-- Lexicographic order on strings (the `std::map` key order). -/
def strLtB (a b : String) : Bool :=
  charListLtB a.data b.data

/-- Insert-or-replace into a sorted association list: the semantics of
`INSERT OR REPLACE` on a table keyed by its first column, and also of
`std::map::operator[]`/`emplace` followed by assignment. -/
def setKey {α : Type} (k : String) (v : α) : List (String × α) → List (String × α)
  | [] => [(k, v)]
  | (k2, v2) :: rest =>
      if strLtB k k2 then (k, v) :: (k2, v2) :: rest
      else if k = k2 then (k, v) :: rest
      else (k2, v2) :: setKey k v rest

/-- Look up a key in an association list. -/
def lookupKey {α : Type} (k : String) : List (String × α) → Option α
  | [] => none
  | (k2, v2) :: rest => if k = k2 then some v2 else lookupKey k rest

/-! ## The chat game (`ChatGame` in `sqlitegame_tests.cpp`)

State: the `chat` table mapping a user name to a message.  A block's move
data is a JSON array of objects `{name, move}` where `move` is an array of
strings; we embed it as a list of `(name, values)` pairs in array order. -/

/-- The `chat` table: user → message, as a sorted map. -/
abbrev ChatState := List (String × String)

/-- One block of chat moves: the JSON `moves` array, in array order. -/
abbrev ChatBlock := List (String × List String)

/-- `ChatGame::UpdateState` (without the fail flag): for each move object in
JSON-array order, for each value of its `move` array in order, execute
`INSERT OR REPLACE INTO chat (user, msg) VALUES (name, value)`. -/
def chatUpdateMoves (s : ChatState) (moves : ChatBlock) : ChatState :=
  moves.foldl (fun st m => m.2.foldl (fun st2 v => setKey m.1 v st2) st) s

/-- `ChatGame::UpdateState` as the engine's forward hook: runs all SQL
statements and then reports failure iff the `shouldFail` flag is set (the
source throws `Failure` after the loop). -/
def chatStep (shouldFail : Bool) (s : ChatState) (b : ChatBlock) : ChatState × Bool :=
  (chatUpdateMoves s b, shouldFail)

/-- `ChatGame::InitialiseState` (with the fail flag clear): inserts
`(domob, hello world)` and `(foo, bar)` into the empty `chat` table. -/
def chatInitialState : ChatState :=
  setKey "foo" "bar" (setKey "domob" "hello world" [])

/-- `ChatGame::Moves`: groups a move set (a list of `(player, message)`
pairs) into the JSON moves array.  It builds a `std::map` from player to
the array of that player's messages in order (`perPlayer[m.first].append`)
and emits one `{name, move}` object per player in map (sorted) order. -/
def chatMoves (ms : List (String × String)) : ChatBlock :=
  ms.foldl (fun acc m => setKey m.1 ((lookupKey m.1 acc).getD [] ++ [m.2]) acc) []

/-! ## The engine: block attach/detach

Modelled from the spec: `SQLiteGame`'s attach/detach machinery is not in
the given sources.  Per spec §4.D, the engine wraps each block update in
one shared transaction; the undo entry for a block is a backend-native
savepoint, and `Backward` restores the savepoint rather than invoking the
rules again.  We model a savepoint as a snapshot of the rule-visible
database state, and the undo log as the stack of such snapshots. -/

/-- Engine state: the current rule-visible database state plus the undo
log, a stack of `(block, savepoint)` entries from the tip downwards. -/
structure Engine (σ β : Type) where
  current : σ
  undoLog : List (β × σ)
  deriving DecidableEq, Repr

/-- Modelled from the spec: `AdvanceForward` (block attach).  Runs the
rules' forward hook inside a transaction; on failure the transaction rolls
back, leaving the engine untouched, and the failure is reported; on
success the pre-block savepoint is pushed onto the undo log and the
checkpoint moves to the new state. -/
def attachBlock {σ β : Type} (step : σ → β → σ × Bool)
    (e : Engine σ β) (b : β) : Engine σ β × Bool :=
  let (s2, failed) := step e.current b
  if failed then (e, true)
  else ({ current := s2, undoLog := (b, e.current) :: e.undoLog }, false)

/-- Modelled from the spec: `RewindBackward` (block detach).  Restores the
savepoint of the tip block and pops its undo entry; `none` if there is no
block to detach. -/
def detachBlock {σ β : Type} (e : Engine σ β) : Option (Engine σ β) :=
  match e.undoLog with
  | [] => none
  | (_, prev) :: rest => some { current := prev, undoLog := rest }

/-! ## Generated IDs (`Ids(name)` service)

Modelled from the spec: the generated-ID allocator lives in `SQLiteGame`,
not in the given sources.  Per spec §4.D.4 it is a named-counter service
`ids(name).next()` / `ids(name).reserve_up_to(n)` persisted in a dedicated
table, rolled back by savepoints like any other table, with
`reserve_up_to` monotonic.  The tests pin the concrete semantics: a fresh
range's first `GetNext` returns 1 and each later one returns the previous
value plus one; after `ReserveUpTo (n)` the next ID is at least `n + 1`. -/

/-- The persisted ID table: range name → next ID to hand out.  A name that
is absent is a fresh range whose next ID is 1. -/
abbrev IdsMap := List (String × Nat)

/-- Modelled from the spec: the next ID the named range would generate. -/
def nextIdOf (m : IdsMap) (name : String) : Nat :=
  (lookupKey name m).getD 1

/-- Modelled from the spec: `Ids(name).GetNext ()` — returns the next ID of
the range and bumps the stored counter past it. -/
def getNextId (m : IdsMap) (name : String) : Nat × IdsMap :=
  (nextIdOf m name, setKey name (nextIdOf m name + 1) m)

/-- Modelled from the spec: `Ids(name).ReserveUpTo (n)` — makes sure all
IDs up to `n` count as generated, so the next ID is at least `n + 1`; a
smaller argument never lowers the counter. -/
def reserveUpTo (m : IdsMap) (name : String) (n : Nat) : IdsMap :=
  setKey name (max (nextIdOf m name) (n + 1)) m

/-! ## The insert game (`InsertGame` in `sqlitegame_tests.cpp`)

State: two tables `first` and `second` of `(id, name)` rows plus the
persisted ID ranges.  A block's move data is just the list of player
names, in JSON-array order. -/

/-- The rule-visible database state of the insert game: both tables (as
row lists in insertion order) and the ID-range table. -/
structure InsertState where
  first : List (Nat × String)
  second : List (Nat × String)
  ids : IdsMap
  deriving DecidableEq, Repr

/-- One block of insert-game moves: the moved names in array order. -/
abbrev InsertBlock := List String

/-- `InsertGame::UpdateState` (without the fail flag): for each name in
move order, draw the next ID from the `first` and `second` ranges and
insert the `(id, name)` row into the corresponding table. -/
def insertUpdateMoves (s : InsertState) (moves : InsertBlock) : InsertState :=
  moves.foldl
    (fun st name =>
      let (fid, ids1) := getNextId st.ids "first"
      let (sid, ids2) := getNextId ids1 "second"
      { first := st.first ++ [(fid, name)],
        second := st.second ++ [(sid, name)],
        ids := ids2 })
    s

/-- `InsertGame::UpdateState` as the engine's forward hook: all inserts
run, then failure is reported iff the `shouldFail` flag is set. -/
def insertStep (shouldFail : Bool) (s : InsertState) (b : InsertBlock) :
    InsertState × Bool :=
  (insertUpdateMoves s b, shouldFail)

/-- `InsertGame::SetupSchema` followed by `InsertGame::InitialiseState`
(fail flag clear): the schema hook checks `Ids ("test").GetNext () == 1`;
initialisation inserts `(2, domob)` into `first` and `(5, domob)` into
`second`, reserves `first` up to 2 and `second` up to 9, calls
`ReserveUpTo (4)` a second time on `second`, and checks
`Ids ("test").GetNext () == 2`. -/
def insertInitialState : InsertState :=
  let ids0 : IdsMap := (getNextId [] "test").2
  let ids1 := reserveUpTo ids0 "first" 2
  let ids2 := reserveUpTo ids1 "second" 9
  let ids3 := reserveUpTo ids2 "second" 4
  let ids4 := (getNextId ids3 "test").2
  { first := [(2, "domob")], second := [(5, "domob")], ids := ids4 }

/-- `InsertGame::GetStateAsJson`: reads both tables back into maps from
name to ID (names are unique) and emits, per name in sorted order, the
pair of its IDs in the two tables. -/
def insertStateView (s : InsertState) : List (String × (Nat × Nat)) :=
  let firstMap := s.first.foldl (fun m r => setKey r.2 r.1 m) []
  let secondMap := s.second.foldl (fun m r => setKey r.2 r.1 m) []
  firstMap.foldl
    (fun acc e =>
      match lookupKey e.1 secondMap with
      | some sid => acc ++ [(e.1, (e.2, sid))]
      | none => acc)
    []

/-! ## Game-state-string queries (`SQLiteGame::GameStateToJson`)

Modelled from the spec: the query dispatch on the game-state string lives
in `SQLiteGame`, not in the given sources.  Per spec §4.D.6/§7 the state
may be queried by `"initial"` (requires the current checkpoint to be the
game's initial block), `"block <hex>"` (requires `<hex>` to be the current
checkpoint hash) and `"current"`; a mismatch is a `PreconditionFailed`
error and an unrecognized selector a `BadSelector` error.  Selector
strings are embedded as character lists; a block hash is 64 lowercase hex
characters (spec §4.A). -/

/-- Errors of the state query, per the spec's taxonomy. -/
inductive QueryError where
  | PreconditionFailed (msg : String)
  | BadSelector
  deriving DecidableEq, Repr

/-- A parsed selector. -/
inductive Selector where
  | initialSel
  | currentSel
  | blockSel (hashHex : List Char)
  deriving DecidableEq, Repr

/-- Is the character a lowercase hex digit? -/
def isHexChar (c : Char) : Bool :=
  (decide ('0' ≤ c) && decide (c ≤ '9')) || (decide ('a' ≤ c) && decide (c ≤ 'f'))

/-- Is the character list a well-formed block hash: 64 lowercase hex
characters (spec §4.A)? -/
def isHexHash (h : List Char) : Bool :=
  h.length = 64 && h.all isHexChar

/-- The selector string `initial`, as characters. -/
def initialChars : List Char := ['i', 'n', 'i', 't', 'i', 'a', 'l']

/-- The selector string `current`, as characters. -/
def currentChars : List Char := ['c', 'u', 'r', 'r', 'e', 'n', 't']

/-- The tag `block ` starting a by-hash selector, as characters. -/
def blockChars : List Char := ['b', 'l', 'o', 'c', 'k', ' ']

/-- Strips the leading characters `block ` from a selector string. -/
def stripBlockTag : List Char → Option (List Char)
  | 'b' :: 'l' :: 'o' :: 'c' :: 'k' :: ' ' :: rest => some rest
  | _ => none

/-- Modelled from the spec: parses a game-state selector string.  The
recognized forms are exactly `initial`, `current` and `block <hex>` with a
well-formed hash. -/
def parseSelector (s : List Char) : Option Selector :=
  if s = initialChars then some Selector.initialSel
  else if s = currentChars then some Selector.currentSel
  else
    match stripBlockTag s with
    | some h => if isHexHash h then some (Selector.blockSel h) else none
    | none => none

/-- The storage context a query runs against: the current checkpoint hash,
the game's initial block hash and the stored state. -/
structure QueryEnv where
  currentHash : List Char
  initialHash : List Char
  state : ChatState
  deriving DecidableEq, Repr

/-- Modelled from the spec: `GameStateToJson` on a game-state string.
`initial` requires the current checkpoint to sit at the game's initial
block, `block <hex>` requires `<hex>` to equal the current checkpoint
hash, `current` always answers; only then is the state view returned. -/
def gameStateQuery (env : QueryEnv) (sel : List Char) :
    Except QueryError ChatState :=
  match parseSelector sel with
  | none => Except.error QueryError.BadSelector
  | some Selector.initialSel =>
      if env.currentHash = env.initialHash then Except.ok env.state
      else Except.error
        (QueryError.PreconditionFailed "does not match the game's initial block")
  | some Selector.currentSel => Except.ok env.state
  | some (Selector.blockSel h) =>
      if h = env.currentHash then Except.ok env.state
      else Except.error
        (QueryError.PreconditionFailed "does not match claimed current game state")

/-! ## Persistence (`PersistenceTests` with an on-disk database)

Modelled from the spec: the on-disk SQLite storage is not in the given
sources.  Per spec §4.D all engine and rule state — the `chat` table, the
checkpoint and the undo entries — lives in the database file, and the
`ChatGame` constructor merely opens the file; its `SetupSchema` hook runs
`CREATE TABLE IF NOT EXISTS`, so on a file that already holds data it
changes nothing. -/

/-- The content of the on-disk database file backing a chat game: whether
the schema has been created, and the engine state persisted in it. -/
structure ChatDisk where
  schemaReady : Bool
  engine : Engine ChatState ChatBlock
  deriving DecidableEq, Repr

/-- Modelled from the spec: constructing a `ChatGame` on a database file —
opens the file and runs `SetupSchema`, which creates the `chat` table only
if it does not yet exist and touches nothing else.  No block is
re-applied. -/
def createChatGame (d : ChatDisk) : ChatDisk :=
  if d.schemaReady then d
  else { schemaReady := true, engine := { current := [], undoLog := [] } }

/-- Attaching a block to the disk-backed game: the engine transaction runs
against the file and its outcome is persisted. -/
def diskAttach (d : ChatDisk) (b : ChatBlock) : ChatDisk :=
  { d with engine := (attachBlock (chatStep false) d.engine b).1 }

/-- The current view of the disk-backed game: the stored current state. -/
def diskView (d : ChatDisk) : ChatState :=
  d.engine.current

/-- The database file right after schema setup and state initialisation:
the initial chat state is stored and no undo entries exist. -/
def chatDisk0 : ChatDisk :=
  { schemaReady := true,
    engine := { current := chatInitialState, undoLog := [] } }

/-! ## The callback adapter (`defaultmain.cpp`)

`DefaultMain` has two overloads: one takes a `GameLogic` (the subclass
interface), the other a `GameLogicCallbacks` struct of function pointers
and wraps it in the `CallbackGameLogic` adapter before calling the first
overload.  The daemon body of `DefaultMain` (RPC setup, storage creation,
the run loop) only consumes the `GameLogic` it is given, so we abstract it
as a function `run` of the installed logic. -/

/-- The chain the daemon is connected to (`Chain` enum). -/
inductive Chain where
  | mainnet
  | testnet
  | regtest
  deriving DecidableEq, Repr

/-- Game states are opaque byte blobs (`GameStateData`). -/
abbrev GameStateData := String

/-- Undo data is an opaque byte blob (`UndoData`). -/
abbrev UndoData := String

/-- Block data handed to the rules (a JSON value, treated opaquely). -/
abbrev BlockData := String

/-- A JSON value returned by the state projection.  The base
`GameLogic::GameStateToJson` turns the state blob directly into a JSON
value, so the two types coincide in the model. -/
abbrev JsonValue := String

/-- `GameLogicCallbacks`: the struct of function pointers, each of which
may be null (`none`).  The callbacks receive the chain explicitly, which
the adapter obtains from `GetChain ()`. -/
structure GameLogicCallbacks where
  GetInitialState : Option (Chain → GameStateData × Nat × String)
  ProcessForward : Option (Chain → GameStateData → BlockData → GameStateData × UndoData)
  ProcessBackwards : Option (Chain → GameStateData → BlockData → UndoData → GameStateData)
  GameStateToJson : Option (GameStateData → JsonValue)

/-- The `GameLogic` interface as a record of its virtual methods.  A
method result of `none` models the process abort of a failed null-pointer
`CHECK` in the adapter; genuine subclasses always answer. -/
structure GameLogic where
  getInitialState : Chain → Option (GameStateData × Nat × String)
  processForward : Chain → GameStateData → BlockData → Option (GameStateData × UndoData)
  processBackwards : Chain → GameStateData → BlockData → UndoData → Option GameStateData
  gameStateToJson : GameStateData → JsonValue

/-- Modelled from the spec: the base-class `GameLogic::GameStateToJson`
default, which is not in the given sources; per spec §4.B the projection
`StateToView` "defaults to identity". -/
def baseGameStateToJson (s : GameStateData) : JsonValue := s

/-- `CallbackGameLogic`: forwards every method to the corresponding
callback, `CHECK`-failing (modelled as `none`) if a mandatory callback is
null, and falling back to the base-class default for a null
`GameStateToJson`. -/
def CallbackGameLogic (cb : GameLogicCallbacks) : GameLogic where
  getInitialState c := cb.GetInitialState.map (fun f => f c)
  processForward c s b := cb.ProcessForward.map (fun f => f c s b)
  processBackwards c s b u := cb.ProcessBackwards.map (fun f => f c s b u)
  gameStateToJson s :=
    match cb.GameStateToJson with
    | some f => f s
    | none => baseGameStateToJson s

/-- `DefaultMain (config, gameId, rules)`: the daemon run on the given
game logic, with the daemon body (which never inspects the rules other
than installing them) abstracted as `run`. -/
def DefaultMainWithLogic (run : GameLogic → Int) (rules : GameLogic) : Int :=
  run rules

/-- `DefaultMain (config, gameId, callbacks)`: constructs the
`CallbackGameLogic` adapter over the callbacks and calls the `GameLogic`
overload with it. -/
def DefaultMainWithCallbacks (run : GameLogic → Int)
    (cb : GameLogicCallbacks) : Int :=
  DefaultMainWithLogic run (CallbackGameLogic cb)

/-! ## Concrete test scenarios -/

/-- The engine right after state initialisation of the chat game. -/
def chatEngine0 : Engine ChatState ChatBlock :=
  { current := chatInitialState, undoLog := [] }

/-- The moves of the block attached at height 11 in
`MovingTests.ForwardAndBackward`. -/
def chatBlock11 : ChatBlock :=
  chatMoves [("domob", "new"), ("a", "x"), ("a", "y")]

/-- The moves of the block attached at height 12 in
`MovingTests.ForwardAndBackward`. -/
def chatBlock12 : ChatBlock :=
  chatMoves [("a", "z")]

/-- The engine after attaching the height-11 block. -/
def chatEngine1 : Engine ChatState ChatBlock :=
  (attachBlock (chatStep false) chatEngine0 chatBlock11).1

/-- The engine after also attaching the height-12 block. -/
def chatEngine2 : Engine ChatState ChatBlock :=
  (attachBlock (chatStep false) chatEngine1 chatBlock12).1

/-- The engine of the insert game right after state initialisation:
rows `first = {(2, domob)}`, `second = {(5, domob)}` and the ID ranges
reserved to `first = 2`, `second = 9`. -/
def genIdEngine0 : Engine InsertState InsertBlock :=
  { current := insertInitialState, undoLog := [] }

/-- The insert-game engine after attaching the block with moves
`[foo, bar]`. -/
def genIdEngine1 : Engine InsertState InsertBlock :=
  (attachBlock (insertStep false) genIdEngine0 ["foo", "bar"]).1

/-! ## Helper lemmas -/

/-- The key order is irreflexive on character lists. -/
theorem charListLtB_irrefl (l : List Char) : charListLtB l l = false := by
  induction l with
  | nil => rfl
  | cons x xs ih => simp [charListLtB, ih]

/-- The key order is irreflexive. -/
theorem strLtB_irrefl (k : String) : strLtB k k = false :=
  charListLtB_irrefl k.data

/-- Looking up the key just written by `setKey` yields the new value. -/
theorem lookupKey_setKey_self {α : Type} (k : String) (v : α)
    (l : List (String × α)) : lookupKey k (setKey k v l) = some v := by
  induction l with
  | nil => simp [setKey, lookupKey]
  | cons hd tl ih =>
      obtain ⟨k2, v2⟩ := hd
      by_cases h1 : strLtB k k2
      · simp [setKey, lookupKey, h1]
      · by_cases h2 : k = k2
        · subst h2
          simp [setKey, lookupKey, strLtB_irrefl]
        · simp [setKey, lookupKey, h1, h2, ih]

/-- `setKey` leaves every other key's binding unchanged. -/
theorem lookupKey_setKey_ne {α : Type} (k k3 : String) (v : α)
    (l : List (String × α)) (hne : k3 ≠ k) :
    lookupKey k3 (setKey k v l) = lookupKey k3 l := by
  induction l with
  | nil => simp [setKey, lookupKey, hne]
  | cons hd tl ih =>
      obtain ⟨k2, v2⟩ := hd
      by_cases h1 : strLtB k k2
      · simp [setKey, lookupKey, h1, hne]
      · by_cases h2 : k = k2
        · subst h2
          simp [setKey, lookupKey, strLtB_irrefl, hne]
        · by_cases h3 : k3 = k2
          · simp [setKey, lookupKey, h1, h2, h3]
          · simp [setKey, lookupKey, h1, h2, h3, ih]

/-- Writing the same key-value pair twice is the same as writing it
once. -/
theorem setKey_setKey_self {α : Type} (k : String) (v : α)
    (l : List (String × α)) : setKey k v (setKey k v l) = setKey k v l := by
  induction l with
  | nil => simp [setKey, strLtB_irrefl]
  | cons hd tl ih =>
      obtain ⟨k2, v2⟩ := hd
      by_cases h1 : strLtB k k2
      · simp [setKey, h1, strLtB_irrefl]
      · by_cases h2 : k = k2
        · subst h2
          simp [setKey, strLtB_irrefl]
        · simp [setKey, h1, h2, ih]

/-- Inversion for `stripBlockTag`: a successful strip means the string was
the block tag followed by the remainder. -/
theorem stripBlockTag_eq_some {s h : List Char}
    (hst : stripBlockTag s = some h) : s = blockChars ++ h := by
  unfold stripBlockTag at hst
  split at hst
  · rename_i rest
    obtain rfl : rest = h := Option.some.injEq _ _ ▸ hst
    rfl
  · exact absurd hst (by simp)

/-- `parseSelector` on a well-tagged block selector. -/
theorem parseSelector_blockTag (h : List Char) :
    parseSelector (blockChars ++ h)
      = if isHexHash h then some (Selector.blockSel h) else none := by
  have hne1 : blockChars ++ h ≠ initialChars := by
    intro hc
    have h0 : List.head? (blockChars ++ h) = List.head? initialChars :=
      congrArg List.head? hc
    simp [blockChars, initialChars] at h0
  have hne2 : blockChars ++ h ≠ currentChars := by
    intro hc
    have h0 : List.head? (blockChars ++ h) = List.head? currentChars :=
      congrArg List.head? hc
    simp [blockChars, currentChars] at h0
  unfold parseSelector
  rw [if_neg hne1, if_neg hne2]
  rfl

/-! ## Claim theorems -/

/-- Claim C1: applying the backward transition to the result of a
successful forward transition, with the undo data that transition
produced, restores the prior engine state — checkpoint and undo log —
exactly. -/
theorem attach_then_detach_restores {σ β : Type} (step : σ → β → σ × Bool)
    (e e2 : Engine σ β) (b : β)
    (hok : attachBlock step e b = (e2, false)) :
    detachBlock e2 = some e := by
  rcases hp : step e.current b with ⟨s2, failed⟩
  unfold attachBlock at hok
  rw [hp] at hok
  cases failed with
  | true => simp at hok
  | false =>
      simp only [Bool.false_eq_true, if_false, Prod.mk.injEq, and_true] at hok
      rw [← hok]
      rfl

/-- Claim C1 witness: the concrete chat-game scenario — from the initial
state `{domob: hello world, foo: bar}`, attach the blocks at heights 11
and 12, then detach both; the storage returns to exactly the initial
state. -/
theorem attach_then_detach_restores_witness :
    detachBlock chatEngine2 = some chatEngine1 ∧
    detachBlock chatEngine1 = some chatEngine0 ∧
    chatEngine0.current = [("domob", "hello world"), ("foo", "bar")] :=
  ⟨attach_then_detach_restores (chatStep false) chatEngine1 chatEngine2
      chatBlock12 (by decide),
   attach_then_detach_restores (chatStep false) chatEngine0 chatEngine1
      chatBlock11 (by decide),
   by decide⟩

/-- Claim C2: a forward transition whose rules hook raises (the fail flag
is set) leaves the engine — current state and undo log — exactly as it was
before the attach, the failure being reported to the caller; with the flag
cleared the very same attach succeeds and yields the state obtained by
applying the block's moves.  The concrete instance of
`MovingTests.ErrorHandling` is included. -/
theorem attach_failure_is_atomic (e : Engine ChatState ChatBlock)
    (b : ChatBlock) :
    attachBlock (chatStep true) e b = (e, true) ∧
    attachBlock (chatStep false) e b =
      ({ current := chatUpdateMoves e.current b,
         undoLog := (b, e.current) :: e.undoLog }, false) ∧
    (attachBlock (chatStep true) chatEngine0
        (chatMoves [("domob", "failed")])).1.current
      = [("domob", "hello world"), ("foo", "bar")] ∧
    (attachBlock (chatStep false) chatEngine0 chatBlock11).1.current
      = [("a", "y"), ("domob", "new"), ("foo", "bar")] :=
  ⟨rfl, rfl, by decide, by decide⟩

/-- Claim C3: generated-ID counters roll back together with the tables.
With initial reservations `first = 2`, `second = 9` and row
`domob: (2, 5)`, attaching `[foo, bar]` yields IDs `(foo: 3, 10)` and
`(bar: 4, 11)`; detaching restores exactly the initial engine state, whose
counters stand at 3 and 10 again; re-attaching `[foo, baz]` therefore
reuses the same IDs `(foo: 3, 10)`, `(baz: 4, 11)`. -/
theorem generated_ids_roll_back :
    insertStateView genIdEngine0.current = [("domob", (2, 5))] ∧
    insertStateView genIdEngine1.current
      = [("bar", (4, 11)), ("domob", (2, 5)), ("foo", (3, 10))] ∧
    detachBlock genIdEngine1 = some genIdEngine0 ∧
    nextIdOf genIdEngine0.current.ids "first" = 3 ∧
    nextIdOf genIdEngine0.current.ids "second" = 10 ∧
    insertStateView
        (attachBlock (insertStep false) genIdEngine0 ["foo", "baz"]).1.current
      = [("baz", (4, 11)), ("domob", (2, 5)), ("foo", (3, 10))] := by
  decide

/-- Claim C4: `ReserveUpTo` is monotonic — after reserving a named range
up to `a`, a second reservation of the same range up to `b2 ≤ a` is a
no-op on the whole ID table, so the next generated ID of that range (and
every other range) is as if the second call had not happened. -/
theorem reserveUpTo_smaller_noop (m : IdsMap) (name : String) (a b2 : Nat)
    (hle : b2 ≤ a) :
    reserveUpTo (reserveUpTo m name a) name b2 = reserveUpTo m name a := by
  unfold reserveUpTo
  have hn : nextIdOf (setKey name (max (nextIdOf m name) (a + 1)) m) name
      = max (nextIdOf m name) (a + 1) := by
    unfold nextIdOf
    rw [lookupKey_setKey_self]
    rfl
  rw [hn]
  have hmax : max (max (nextIdOf m name) (a + 1)) (b2 + 1)
      = max (nextIdOf m name) (a + 1) :=
    max_eq_left (le_trans (Nat.succ_le_succ hle) (le_max_right _ _))
  rw [hmax, setKey_setKey_self]

/-- Claim C4 witness: after `ReserveUpTo (9)` on the range `second`, a
later `ReserveUpTo (4)` changes nothing, and the next ID of `second`
stays 10. -/
theorem reserveUpTo_smaller_noop_witness :
    reserveUpTo (reserveUpTo [("first", 3), ("test", 2)] "second" 9)
        "second" 4
      = reserveUpTo [("first", 3), ("test", 2)] "second" 9 ∧
    nextIdOf (reserveUpTo (reserveUpTo [("first", 3), ("test", 2)]
        "second" 9) "second" 4) "second" = 10 :=
  ⟨reserveUpTo_smaller_noop [("first", 3), ("test", 2)] "second" 9 4
      (by decide),
   by decide⟩

/-- Claim C5: wrong-hash queries refuse service.  When the stored
checkpoint hash differs from the game's initial block hash, the `initial`
selector answers `PreconditionFailed` with message "does not match the
game's initial block"; and for any well-formed hash different from the
current checkpoint hash, the `block <hex>` selector answers
`PreconditionFailed` with message "does not match claimed current game
state" — in both cases an error, never a state. -/
theorem wrong_hash_queries_refuse (env : QueryEnv) (h : List Char)
    (hinit : env.currentHash ≠ env.initialHash)
    (hhex : isHexHash h = true) (hcur : h ≠ env.currentHash) :
    gameStateQuery env initialChars =
      Except.error (QueryError.PreconditionFailed
        "does not match the game's initial block") ∧
    gameStateQuery env (blockChars ++ h) =
      Except.error (QueryError.PreconditionFailed
        "does not match claimed current game state") := by
  constructor
  · show (if env.currentHash = env.initialHash then Except.ok env.state
        else Except.error (QueryError.PreconditionFailed
          "does not match the game's initial block")) = _
    rw [if_neg hinit]
  · unfold gameStateQuery
    rw [parseSelector_blockTag, if_pos hhex]
    show (if h = env.currentHash then Except.ok env.state
        else Except.error (QueryError.PreconditionFailed
          "does not match claimed current game state")) = _
    rw [if_neg hcur]

/-- Claim C5 witness: with the checkpoint corrupted to an all-`a` hash and
the initial block an all-`b` hash, the `initial` query and a `block` query
for the all-`b` hash both answer `PreconditionFailed` with the respective
messages. -/
theorem wrong_hash_queries_refuse_witness :
    gameStateQuery
        { currentHash := List.replicate 64 'a',
          initialHash := List.replicate 64 'b',
          state := chatInitialState } initialChars =
      Except.error (QueryError.PreconditionFailed
        "does not match the game's initial block") ∧
    gameStateQuery
        { currentHash := List.replicate 64 'a',
          initialHash := List.replicate 64 'b',
          state := chatInitialState } (blockChars ++ List.replicate 64 'b') =
      Except.error (QueryError.PreconditionFailed
        "does not match claimed current game state") :=
  wrong_hash_queries_refuse
    { currentHash := List.replicate 64 'a',
      initialHash := List.replicate 64 'b',
      state := chatInitialState }
    (List.replicate 64 'b') (by decide) (by decide) (by decide)

/-- Claim C6: any selector string that is neither `initial` nor `current`
nor `block <hex>` for a well-formed hash makes the state query answer
`BadSelector`, returning no view. -/
theorem unknown_selector_rejected (env : QueryEnv) (s : List Char)
    (h1 : s ≠ initialChars) (h2 : s ≠ currentChars)
    (h3 : ∀ h : List Char, isHexHash h = true → s ≠ blockChars ++ h) :
    gameStateQuery env s = Except.error QueryError.BadSelector := by
  unfold gameStateQuery parseSelector
  rw [if_neg h1, if_neg h2]
  cases hst : stripBlockTag s with
  | none => rfl
  | some hh =>
      have hs := stripBlockTag_eq_some hst
      cases hhex : isHexHash hh with
      | false => simp [hhex]
      | true => exact absurd hs (h3 hh hhex)

/-- Claim C6 witness: querying with the string `foo` (the
`GameStateStringTests.InvalidString` case) answers `BadSelector`. -/
theorem unknown_selector_rejected_witness :
    gameStateQuery
        { currentHash := List.replicate 64 'a',
          initialHash := List.replicate 64 'a',
          state := chatInitialState } ['f', 'o', 'o'] =
      Except.error QueryError.BadSelector :=
  unknown_selector_rejected _ ['f', 'o', 'o'] (by decide) (by decide)
    (by
      intro h hhex hc
      have hc2 : (['f', 'o', 'o'] : List Char)
          = 'b' :: 'l' :: 'o' :: 'c' :: 'k' :: ' ' :: h := hc
      have hhd : ('f' : Char) = 'b' := by injection hc2
      exact absurd hhd (by decide))

/-- Attaching blocks to the disk-backed game never clears the
schema-created marker of the database file. -/
theorem diskAttach_keeps_schema (bs : List ChatBlock) (d : ChatDisk)
    (hd : d.schemaReady = true) :
    (bs.foldl diskAttach d).schemaReady = true := by
  induction bs generalizing d with
  | nil => exact hd
  | cons b tl ih => exact ih (diskAttach d b) hd

/-- Claim C7: persistence across restart.  After any sequence of block
attaches against the on-disk database, destroying the `ChatGame` and
recreating it on the same file leaves the file — current view included —
exactly as it was, re-applying no block; concretely, after attaching the
one block `{domob: new}`, a fresh `ChatGame` on the file reports exactly
`{domob: new, foo: bar}`. -/
theorem persistence_across_restart (bs : List ChatBlock) :
    createChatGame (bs.foldl diskAttach chatDisk0) =
      bs.foldl diskAttach chatDisk0 ∧
    diskView (createChatGame
        (List.foldl diskAttach chatDisk0 [chatMoves [("domob", "new")]]))
      = [("domob", "new"), ("foo", "bar")] := by
  constructor
  · have h := diskAttach_keeps_schema bs chatDisk0 rfl
    unfold createChatGame
    rw [if_pos h]
  · decide

/-- Claim C8: within one block the rules apply move objects in JSON-array
order — applying the first object and then the rest equals applying the
whole array — and repeated writes to one key are won by the last value of
its move array; concretely, the height-11 block whose grouped moves give
player `a` the values `x` then `y` leaves the chat state at
`{a: y, domob: new, foo: bar}`. -/
theorem moves_in_order_last_write_wins (s : ChatState)
    (m : String × List String) (rest : ChatBlock)
    (name v : String) (vals : List String) :
    chatUpdateMoves s (m :: rest)
      = chatUpdateMoves (chatUpdateMoves s [m]) rest ∧
    lookupKey name (chatUpdateMoves s [(name, vals ++ [v])]) = some v ∧
    chatUpdateMoves chatInitialState chatBlock11
      = [("a", "y"), ("domob", "new"), ("foo", "bar")] := by
  refine ⟨rfl, ?_, by decide⟩
  show lookupKey name
      (List.foldl (fun st2 v2 => setKey name v2 st2) s (vals ++ [v])) = some v
  rw [List.foldl_append]
  exact lookupKey_setKey_self name v _

/-- Claim C9: the callbacks entry point of `DefaultMain` equals the
`GameLogic` entry point applied to the `CallbackGameLogic` adapter, and
the adapter forwards every operation to its callback: with a null
`GameStateToJson` the projection is the base-class default, the identity;
with a non-null one it is the callback's result; the mandatory callbacks
are forwarded verbatim. -/
theorem callback_main_equivalent (run : GameLogic → Int)
    (cb : GameLogicCallbacks) (c : Chain) (s : GameStateData)
    (b : BlockData) (u : UndoData) :
    DefaultMainWithCallbacks run cb
      = DefaultMainWithLogic run (CallbackGameLogic cb) ∧
    (cb.GameStateToJson = none →
      (CallbackGameLogic cb).gameStateToJson s = baseGameStateToJson s ∧
      baseGameStateToJson s = s) ∧
    (∀ f, cb.GameStateToJson = some f →
      (CallbackGameLogic cb).gameStateToJson s = f s) ∧
    (∀ pf, cb.ProcessForward = some pf →
      (CallbackGameLogic cb).processForward c s b = some (pf c s b)) ∧
    (∀ pb, cb.ProcessBackwards = some pb →
      (CallbackGameLogic cb).processBackwards c s b u = some (pb c s b u)) ∧
    (∀ gi, cb.GetInitialState = some gi →
      (CallbackGameLogic cb).getInitialState c = some (gi c)) := by
  refine ⟨rfl, ?_, ?_, ?_, ?_, ?_⟩
  · intro h
    exact ⟨by simp [CallbackGameLogic, h], rfl⟩
  · intro f h
    simp [CallbackGameLogic, h]
  · intro pf h
    simp [CallbackGameLogic, h]
  · intro pb h
    simp [CallbackGameLogic, h]
  · intro gi h
    simp [CallbackGameLogic, h]

/-- A callbacks struct with every pointer set, for the C9 witness. -/
def cbAll : GameLogicCallbacks :=
  { GetInitialState := some (fun _ => ("genesis", 10, "hash10")),
    ProcessForward := some (fun _ s b => (s ++ b, "undo")),
    ProcessBackwards := some (fun _ s _ u => s ++ u),
    GameStateToJson := some (fun s => s ++ "!") }

/-- The same callbacks struct with a null `GameStateToJson`. -/
def cbNoJson : GameLogicCallbacks :=
  { cbAll with GameStateToJson := none }

/-- Claim C9 witness: on concrete callback structs, the adapter's
projection is the identity when the callback is null and the callback's
result when it is set, and `ProcessForward` is forwarded. -/
theorem callback_main_equivalent_witness :
    (CallbackGameLogic cbNoJson).gameStateToJson "state" = "state" ∧
    (CallbackGameLogic cbAll).gameStateToJson "state" = "state!" ∧
    (CallbackGameLogic cbAll).processForward Chain.mainnet "s" "b"
      = some ("sb", "undo") := by
  refine ⟨?_, ?_, ?_⟩
  · have h :=
      (callback_main_equivalent (fun _ => 0) cbNoJson Chain.mainnet
        "state" "b" "u").2.1 rfl
    rw [h.1, h.2]
  · rw [(callback_main_equivalent (fun _ => 0) cbAll Chain.mainnet
        "state" "b" "u").2.2.1 (fun s => s ++ "!") rfl]
    decide
  · rw [(callback_main_equivalent (fun _ => 0) cbAll Chain.mainnet
        "s" "b" "u").2.2.2.1 (fun _ s b => (s ++ b, "undo")) rfl]
    decide

/-- Claim C10: a never-used named ID range starts at 1 — on the empty ID
table the first `GetNext` returns 1 — each `GetNext` leaves the counter so
that the next `GetNext` on the same range returns one more, and a
`GetNext` on one range never disturbs the next ID of any other range. -/
theorem id_ranges_fresh_and_independent (m : IdsMap) (name other : String)
    (hne : other ≠ name) :
    (getNextId [] name).1 = 1 ∧
    (getNextId (getNextId m name).2 name).1 = (getNextId m name).1 + 1 ∧
    nextIdOf (getNextId m name).2 other = nextIdOf m other := by
  refine ⟨rfl, ?_, ?_⟩
  · show nextIdOf (setKey name (nextIdOf m name + 1) m) name
      = nextIdOf m name + 1
    unfold nextIdOf
    rw [lookupKey_setKey_self]
    rfl
  · show nextIdOf (setKey name (nextIdOf m name + 1) m) other = nextIdOf m other
    unfold nextIdOf
    rw [lookupKey_setKey_ne _ _ _ _ hne]

/-- Claim C10 witness: with `first` and `second` reserved to other values,
the fresh `test` range returns 1, a second `GetNext` on it returns 2, and
the `second` range is undisturbed. -/
theorem id_ranges_fresh_and_independent_witness :
    (getNextId [] "test").1 = 1 ∧
    (getNextId (getNextId [("first", 3), ("second", 10)] "test").2 "test").1
      = (getNextId [("first", 3), ("second", 10)] "test").1 + 1 ∧
    nextIdOf (getNextId [("first", 3), ("second", 10)] "test").2 "second"
      = nextIdOf [("first", 3), ("second", 10)] "second" :=
  id_ranges_fresh_and_independent [("first", 3), ("second", 10)] "test"
    "second" (by decide)

end Xaya
